import Mathlib

/-!
Verification of the consul-k8s-operator charm logic.

This file gives a shallow embedding of the charm's reconcile loop and its
helpers, translated from the Python sources:
  * `src/charm/src/charm.py` (class `ConsulCharm`)
  * `src/charm/src/config_builder.py` (`Ports`, `ConsulConfigBuilder`)
  * `src/charm/src/k8s_resource_handlers.py` (`KubernetesServiceHandler`)
  * `src/lib/charms/consul_k8s/v0/consul_cluster.py`
    (`ConsulConfigProvider`, `ConsulConfigRequirer`)

Python dictionaries holding a fixed key set are embedded as structures,
Python `None` as `Option.none`, and the workload container (Pebble) as an
explicit `WorkloadState` record threaded through the reconcile step.
-/

/-! ### Charm configuration

Juju charm configuration values reach the code through `self.config.get(...)`
and are tested for Python truthiness (`if self.config.get(...)`).  A value is
embedded together with its Python truthiness: an unset option (`None`), a
boolean (the `src/src` charm variant uses a boolean `expose-gossip-and-rpc-ports`
option) or a string (the `src/charm` variant uses the enum strings
`"false" | "nodeport" | "loadbalancer"`).
-/

/-- A raw charm configuration value as seen by `self.config.get`. -/
inductive ConfigValue where
  | null
  | bool (b : Bool)
  | str (s : String)
deriving DecidableEq, Repr

/-- Python truthiness of a configuration value: `None` and `False` and the
empty string are falsy, everything else is truthy. -/
def ConfigValue.truthy : ConfigValue → Bool
  | .null => false
  | .bool b => b
  | .str s => s ≠ ""

/-- The charm configuration options read by `ConsulCharm`
(`datacenter`, `expose-gossip-and-rpc-ports`, `serflan-node-port`). -/
structure CharmConfig where
  datacenter : String
  exposeGossipAndRpcPorts : ConfigValue
  serflanNodePort : Int
deriving DecidableEq, Repr

/-! ### Ports (`config_builder.Ports` and `ConsulCharm.get_consul_ports`) -/

/-- `config_builder.Ports`: named integer ports; `-1` and `0` are the
"unsupported" sentinels used by the charm. -/
structure Ports where
  dns : Int
  http : Int
  https : Int
  grpc : Int
  grpc_tls : Int
  serf_lan : Int
  serf_wan : Int
  server : Int
  sidecar_min_port : Int
  sidecar_max_port : Int
  expose_min_port : Int
  expose_max_port : Int
deriving DecidableEq, Repr

/-- `ConsulCharm.get_consul_ports`: the hard-coded port dict; `serf_lan` is
overridden with `serflan-node-port` exactly when `expose-gossip-and-rpc-ports`
is truthy. -/
def get_consul_ports (cfg : CharmConfig) : Ports :=
  let base : Ports :=
    { dns := -1
      http := 8500
      https := -1
      grpc := -1
      grpc_tls := -1
      serf_lan := 8301
      serf_wan := -1
      server := 8300
      sidecar_min_port := 0
      sidecar_max_port := 0
      expose_min_port := 0
      expose_max_port := 0 }
  if cfg.exposeGossipAndRpcPorts.truthy then
    { base with serf_lan := cfg.serflanNodePort }
  else
    base

/-! ### The rendered Consul configuration (`ConsulConfigBuilder.build`) -/

/-- The `ports` sub-dict of the rendered Consul configuration document. -/
structure PortsDoc where
  dns : Int
  http : Int
  https : Int
  grpc : Int
  grpc_tls : Int
  serf_lan : Int
  serf_wan : Int
  server : Int
deriving DecidableEq, Repr

/-- The `tls.defaults` sub-dict of the rendered configuration document. -/
structure TlsDefaults where
  verify_incoming : Bool
  verify_outgoing : Bool
  ca_file : String
  cert_file : String
  key_file : String
deriving DecidableEq, Repr

/-- The full rendered Consul server configuration document
(the dict returned by `ConsulConfigBuilder.build`). -/
structure ConsulConfig where
  bind_addr : String
  bootstrap_expect : Int
  client_addr : String
  connect_enabled : Bool
  datacenter : String
  data_dir : String
  ports : PortsDoc
  retry_join : List String
  server : Bool
  tls_defaults : TlsDefaults
  ui_config_enabled : Bool
deriving DecidableEq, Repr

/-- The `tls_certificates` dict argument of `ConsulConfigBuilder`; the charm
either passes all three keys or (in the `src/src` variant) no dict at all. -/
structure TlsCertPaths where
  ca_certificate_path : String
  server_certificate_path : String
  server_key_path : String
deriving DecidableEq, Repr

def CONSUL_DATA_DIR : String := "/consul/data"

/-- `ConsulConfigBuilder.build`: a pure function of
`(ports, datacenter, number_of_units, retry_join_addresses, tls_certificates)`.
A missing `tls_certificates` dict (`Option.none`) falls back to the fixed
default certificate paths, exactly like `dict.get(key, default)` on `{}`. -/
def ConsulConfigBuilder.build (ports : Ports) (datacenter : String)
    (number_of_units : Int) (retry_join_addresses : List String)
    (tls_certificates : Option TlsCertPaths) : ConsulConfig :=
  { bind_addr := "0.0.0.0"
    bootstrap_expect := number_of_units
    client_addr := "0.0.0.0"
    connect_enabled := false
    datacenter := datacenter
    data_dir := CONSUL_DATA_DIR
    ports :=
      { dns := ports.dns
        http := ports.http
        https := ports.https
        grpc := ports.grpc
        grpc_tls := ports.grpc_tls
        serf_lan := ports.serf_lan
        serf_wan := ports.serf_wan
        server := ports.server }
    retry_join := retry_join_addresses
    server := true
    tls_defaults :=
      { verify_incoming := true
        verify_outgoing := true
        ca_file := ((tls_certificates.map (·.ca_certificate_path)).getD
          "/consul/config/certs/ca.pem")
        cert_file := ((tls_certificates.map (·.server_certificate_path)).getD
          "/consul/config/certs/server-cert.pem")
        key_file := ((tls_certificates.map (·.server_key_path)).getD
          "/consul/config/certs/server-key.pem") }
    ui_config_enabled := false }

/-! ### Endpoint computation -/

/-- `lightkube` pod status: `hostIP` may be absent. -/
structure PodStatus where
  hostIP : Option String
deriving DecidableEq, Repr

/-- A pod as returned by the pod-listing collaborator; `status` may be absent. -/
structure Pod where
  status : Option PodStatus
deriving DecidableEq, Repr

/-- `ConsulCharm._get_hostips_for_consul_service`: collect the distinct host
IPs of the listed pods into a set.  The walrus check
`if pod_status and (hostip := pod_status.hostIP)` skips an absent status, an
absent `hostIP` and an empty (falsy) `hostIP` string. -/
def get_hostips_for_consul_service (pods : List Pod) : Finset String :=
  pods.foldl
    (fun hostips pod =>
      match pod.status with
      | some pod_status =>
        match pod_status.hostIP with
        | some hostip => if hostip ≠ "" then insert hostip hostips else hostips
        | none => hostips
      | none => hostips)
    ∅

/-- `ConsulCharm._get_internal_join_addresses`: always the single in-cluster
DNS-style address `"<app>.<model>.svc:<serf_lan>"`. -/
def get_internal_join_addresses (appName modelName : String) (ports : Ports) :
    List String :=
  [appName ++ "." ++ modelName ++ ".svc:" ++ toString ports.serf_lan]

/-- `ConsulCharm._get_external_join_addresses`: `None` when
`expose-gossip-and-rpc-ports` is falsy; otherwise one
`"<hostIP>:<serf_lan>"` per distinct host IP.  The Python code builds the
result by iterating a `set`, so the collection is modelled as a `Finset`
(iteration order is not a contract). -/
def get_external_join_addresses (cfg : CharmConfig) (pods : List Pod) :
    Option (Finset String) :=
  if cfg.exposeGossipAndRpcPorts.truthy then
    some ((get_hostips_for_consul_service pods).image
      (fun ip_address => ip_address ++ ":" ++ toString (get_consul_ports cfg).serf_lan))
  else
    none

/-! ### The workload (Pebble) and the reconcile cycle (`ConsulCharm._configure`) -/

def CONSUL_CONFIG_PATH : String := "/consul/config/server.json"

/-- The persisted configuration document at `CONSUL_CONFIG_PATH`:
missing, present but not parseable as JSON, or a parsed document.
`json.loads (json.dumps d)` round-trips a config dict to an equal dict, so a
successfully written file is kept as the document itself. -/
inductive FileState where
  | missing
  | corrupt
  | doc (c : ConsulConfig)
deriving DecidableEq, Repr

/-- One entry of a Pebble layer's `services` dict. -/
structure PebbleService where
  override : String
  summary : String
  command : String
  startup : String
deriving DecidableEq, Repr

/-- `ConsulCharm._pebble_layer.services["consul"]`. -/
def pebble_layer_service : PebbleService :=
  { override := "replace"
    summary := "consul"
    command := "consul agent -config-file " ++ CONSUL_CONFIG_PATH
    startup := "enabled" }

/-- The `services` dict of `ConsulCharm._pebble_layer`: the single entry
named `"consul"`.  A plan's services dict holds at most this one entry, so it
is embedded as an `Option PebbleService` (`none` = empty dict). -/
def pebble_layer_services : Option PebbleService := some pebble_layer_service

/-- The externally visible state of the workload container:
whether Pebble is reachable, the persisted configuration file, and the
`services` of the currently active Pebble plan. -/
structure WorkloadState where
  canConnect : Bool
  configFile : FileState
  planServices : Option PebbleService
deriving DecidableEq, Repr

/-- The outcome of evaluating `ConsulCharm._running_consul_config`: either a
returned dict (`doc none` is the empty dict `{}`), or a propagated
`json.decoder.JSONDecodeError`.  The property's handler catches only
`(FileNotFoundError, ops.pebble.Error)`; `JSONDecodeError` is a `ValueError`
and matches neither, so an unparseable document raises out of the property
(and out of the whole reconcile cycle). -/
inductive ReadDocResult where
  | doc (d : Option ConsulConfig)
  | raisesJSONDecodeError
deriving DecidableEq, Repr

/-- `ConsulCharm._running_consul_config`, exception-aware: `{}` when the
workload is unreachable; `{}` for a missing file (`FileNotFoundError` /
pebble `Error`, caught); the parsed document when the file parses; a raised
`JSONDecodeError` when it does not. -/
def running_consul_config_result (st : WorkloadState) : ReadDocResult :=
  if st.canConnect then
    match st.configFile with
    | FileState.doc c => ReadDocResult.doc (some c)
    | FileState.missing => ReadDocResult.doc none
    | FileState.corrupt => ReadDocResult.raisesJSONDecodeError
  else
    ReadDocResult.doc none

/-- The dict returned by `_running_consul_config`, with the raising path
collapsed to the empty dict.  The reconcile-cycle embedding `configure`
below reads the document through this total variant; on a corrupt file the
source instead raises out of the cycle (see `running_consul_config_result`),
so statements about a cycle over a corrupt file must be made against
`running_consul_config_result`, not against `configure`.  The empty dict is
embedded as `none`; this keeps the comparison in `_update_consul_config`
faithful because the built document always carries its fixed keys, so
`{} == built` is `False`. -/
def running_consul_config (st : WorkloadState) : Option ConsulConfig :=
  match running_consul_config_result st with
  | ReadDocResult.doc d => d
  | ReadDocResult.raisesJSONDecodeError => none

/-- The fixed `tls_certificates` dict built inline by
`ConsulCharm._update_consul_config`. -/
def charm_tls_certificates : TlsCertPaths :=
  { ca_certificate_path := "/consul/config/certs/ca.pem"
    server_certificate_path := "/consul/config/certs/server-cert.pem"
    server_key_path := "/consul/config/certs/server-key.pem" }

/-- The configuration document built by `ConsulCharm._update_consul_config`
from the current charm configuration, application/model names and the planned
unit count. -/
def built_consul_config (cfg : CharmConfig) (appName modelName : String)
    (plannedUnits : Int) : ConsulConfig :=
  ConsulConfigBuilder.build (get_consul_ports cfg) cfg.datacenter plannedUnits
    (get_internal_join_addresses appName modelName (get_consul_ports cfg))
    (some charm_tls_certificates)

/-- `ConsulCharm._update_consul_config`: build the document, compare with the
persisted one, push on difference.  Returns the `configChanged` flag and the
workload state after the optional write. -/
def update_consul_config (cfg : CharmConfig) (appName modelName : String)
    (plannedUnits : Int) (st : WorkloadState) : Bool × WorkloadState :=
  let consul_config := built_consul_config cfg appName modelName plannedUnits
  if running_consul_config st = some consul_config then
    (false, st)
  else
    (true, { st with configFile := FileState.doc consul_config })

/-- `ConsulCharm._update_pebble_layer`: compare the active plan's services
with the charm's layer services, apply (`add_layer ... combine=True`) on
difference. -/
def update_pebble_layer (st : WorkloadState) : Bool × WorkloadState :=
  if st.planServices = pebble_layer_services then
    (false, st)
  else
    (true, { st with planServices := pebble_layer_services })

/-- The unit status set by `ConsulCharm._update_status`. -/
inductive Status where
  | active
  | waiting (msg : String)
  | blocked (msg : String)
deriving DecidableEq, Repr

/-- The outcome of one `ConsulCharm._configure` cycle: the workload state it
leaves behind, the status it reports, the two change flags, whether a restart
of the consul service was attempted, and whether
`_set_endpoints_on_related_apps` was invoked. -/
structure CycleResult where
  workload : WorkloadState
  status : Status
  configChanged : Bool
  layerChanged : Bool
  restartAttempted : Bool
  publishAttempted : Bool
deriving DecidableEq, Repr

/-- `ConsulCharm._configure`, one reconcile cycle.  `restartError` is the
environment's answer to `workload.restart`: `some e` means the restart raises
`ChangeError e` (consumed only if a restart is attempted). -/
def configure (cfg : CharmConfig) (appName modelName : String)
    (plannedUnits : Int) (restartError : Option String) (st : WorkloadState) :
    CycleResult :=
  if st.canConnect then
    let r1 := update_consul_config cfg appName modelName plannedUnits st
    let r2 := update_pebble_layer r1.2
    if r1.1 || r2.1 then
      match restartError with
      | some e =>
        { workload := r2.2
          status := Status.blocked ("Failed to restart Consul: " ++ e)
          configChanged := r1.1
          layerChanged := r2.1
          restartAttempted := true
          publishAttempted := false }
      | none =>
        { workload := r2.2
          status := Status.active
          configChanged := r1.1
          layerChanged := r2.1
          restartAttempted := true
          publishAttempted := true }
    else
      { workload := r2.2
        status := Status.active
        configChanged := r1.1
        layerChanged := r2.1
        restartAttempted := false
        publishAttempted := true }
  else
    { workload := st
      status := Status.waiting "Waiting for Pebble ready"
      configChanged := false
      layerChanged := false
      restartAttempted := false
      publishAttempted := false }

/-! ### Port exposure (`ConsulCharm.open_ports`) -/

/-- A per-unit port declaration (`ops.model.Port`). -/
structure UnitPort where
  protocol : String
  port : Int
deriving DecidableEq, Repr

/-- A Kubernetes `ServicePort` as constructed by `open_ports`. -/
structure ServicePort where
  port : Int
  name : String
  protocol : String
  nodePort : Option Int
  targetPort : Option Int
deriving DecidableEq, Repr

/-- What `ConsulCharm.open_ports` does: either declare cluster-internal unit
ports, or hand a NodePort service (name, type, port list) to the Kubernetes
service patch collaborator. -/
inductive OpenPortsResult where
  | clusterIP (ports : List UnitPort)
  | nodePortService (serviceName : String) (serviceType : String)
      (ports : List ServicePort)
deriving DecidableEq, Repr

/-- `ConsulCharm.open_ports`: ClusterIP unit ports when
`expose-gossip-and-rpc-ports` is falsy, otherwise a NodePort service patch —
for every truthy value, with no check of the enum. -/
def open_ports (cfg : CharmConfig) (appName : String) : OpenPortsResult :=
  let ports := get_consul_ports cfg
  if cfg.exposeGossipAndRpcPorts.truthy then
    OpenPortsResult.nodePortService appName "NodePort"
      [ { port := ports.serf_lan
          name := "juju-" ++ toString ports.serf_lan ++ "-tcp"
          protocol := "TCP"
          nodePort := some ports.serf_lan
          targetPort := none }
      , { port := ports.serf_lan
          name := "juju-" ++ toString ports.serf_lan ++ "-udp"
          protocol := "UDP"
          nodePort := some ports.serf_lan
          targetPort := none }
      , { port := ports.http
          name := "juju-" ++ toString ports.http ++ "-tcp"
          protocol := "TCP"
          nodePort := none
          targetPort := some ports.http } ]
  else
    OpenPortsResult.clusterIP
      [ { protocol := "tcp", port := ports.serf_lan }
      , { protocol := "udp", port := ports.serf_lan }
      , { protocol := "tcp", port := ports.http } ]

/-! ### Provider side of the `consul-cluster` relation
(`ConsulConfigProvider.set_cluster_config`) -/

/-- The application databag of one `consul-cluster` relation, holding the two
string keys written by the provider. -/
structure ProviderDatabag where
  datacenter : Option String
  server_join_addresses : Option String
deriving DecidableEq, Repr

/-- `json.dumps` of a list of plain strings (the join addresses carry no
characters that need JSON escaping). -/
def json_dumps_string_list (xs : List String) : String :=
  "[" ++ String.intercalate ", " (xs.map (fun s => "\"" ++ s ++ "\"")) ++ "]"

/-- `ConsulConfigProvider.set_cluster_config`: leader-gated write of
`datacenter` and the JSON-encoded `server_join_addresses` either to one
target relation (`some i`, an index into the relation list) or to every
relation of the interface (`none`).  The pydantic construction of
`ConsulConfigProviderAppData` from a `str` and a `list[str]` cannot raise, so
the `ValidationError` branch is unreachable here. -/
def set_cluster_config (isLeader : Bool) (datacenter : String)
    (server_join_addresses : List String) (target : Option Nat)
    (relations : List ProviderDatabag) : List ProviderDatabag :=
  if !isLeader then
    relations
  else
    let payload : ProviderDatabag :=
      { datacenter := some datacenter
        server_join_addresses := some (json_dumps_string_list server_join_addresses) }
    match target with
    | none => relations.map (fun _ => payload)
    | some i => relations.mapIdx (fun j r => if j = i then payload else r)

/-! ### Kubernetes Service handler (`k8s_resource_handlers.KubernetesServiceHandler`) -/

/-- The Kubernetes `Service` object built by
`KubernetesServiceHandler._construct_service`. -/
structure K8sService where
  name : String
  modelName : String
  labelAppName : String
  ports : List ServicePort
  selectorAppName : String
  serviceType : String
deriving DecidableEq, Repr

/-- `KubernetesServiceHandler._construct_service`. -/
def construct_service (appName modelName : String)
    (service_ports : List ServicePort) (service_type : String) : K8sService :=
  { name := appName ++ "-lb"
    modelName := modelName
    labelAppName := appName
    ports := service_ports
    selectorAppName := appName
    serviceType := service_type }

/-- `KubernetesServiceHandler._reconcile_service`: a non-leader unit returns
before touching the cluster; the leader reconciles the cluster's Service
object to the constructed one. -/
def reconcile_service (isLeader : Bool) (appName modelName : String)
    (service_ports : List ServicePort) (service_type : String)
    (cluster : Option K8sService) : Option K8sService :=
  if !isLeader then
    cluster
  else
    some (construct_service appName modelName service_ports service_type)

/-! ### Requirer side of the `consul-cluster` relation
(`ConsulConfigRequirer`)

The value of the `server_join_addresses` databag key is a raw string; the
pydantic `before`-validator `convert_str_to_list_of_str` runs `json.loads` on
it and the field type then requires `list[str]`.  The raw string is embedded
by the outcome of that parse. -/

/-- The parse outcome of a raw `server_join_addresses` databag string:
not JSON at all, a JSON list of strings, or some other JSON value. -/
inductive RawJson where
  | notJson
  | strList (xs : List String)
  | otherJson
deriving DecidableEq, Repr

/-- The combined `json.loads` + `list[str]` validation of a provided
`server_join_addresses` value; `none` is a `ValidationError`. -/
def parse_server_join_addresses : RawJson → Option (List String)
  | RawJson.strList xs => some xs
  | _ => none

/-- A raw application databag as read on the requirer side: each key may be
absent. -/
structure RawDatabag where
  datacenter : Option String
  server_join_addresses : Option RawJson
deriving DecidableEq, Repr

/-- The pydantic default of the `datacenter` field:
`datacenter: str = Field("Datacenter cluster name")` passes the string as the
positional `default` argument of `Field`. -/
def datacenter_default : String := "Datacenter cluster name"

/-- The validated `server_join_addresses` value: either the pydantic default
string (`Field("Consul server join addresses")`, applied without validation
when the key is absent) or a parsed list. -/
inductive SjaValue where
  | str (s : String)
  | list (xs : List String)
deriving DecidableEq, Repr

/-- The pydantic default of the `server_join_addresses` field. -/
def server_join_addresses_default : SjaValue :=
  SjaValue.str "Consul server join addresses"

/-- A validated `ConsulConfigProviderAppData` model instance. -/
structure ConsulConfigProviderAppData where
  datacenter : String
  server_join_addresses : SjaValue
deriving DecidableEq, Repr

/-- `ConsulConfigProviderAppData(**databag)`: pydantic v2 fills an absent
field with its declared default without validating it, and validates a
provided `server_join_addresses` with the `before`-validator plus the
`list[str]` type check; `none` is a raised `ValidationError`. -/
def consul_config_provider_app_data_of (bag : RawDatabag) :
    Option ConsulConfigProviderAppData :=
  let dc := bag.datacenter.getD datacenter_default
  match bag.server_join_addresses with
  | none => some { datacenter := dc, server_join_addresses := server_join_addresses_default }
  | some raw =>
    match parse_server_join_addresses raw with
    | some xs => some { datacenter := dc, server_join_addresses := SjaValue.list xs }
    | none => none

/-- `ConsulConfigRequirer._validate_databag_from_relation`: `True` when there
is no relation or the databag validates; `False` exactly on a caught
`ValidationError`. -/
def validate_databag_from_relation (rel : Option RawDatabag) : Bool :=
  match rel with
  | none => true
  | some bag => (consul_config_provider_app_data_of bag).isSome

/-- `ConsulConfigRequirer._get_app_databag_from_relation`: the validated
model dump, or the empty dict (embedded as `none`) when there is no relation
or validation fails. -/
def get_app_databag_from_relation (rel : Option RawDatabag) :
    Option ConsulConfigProviderAppData :=
  match rel with
  | none => none
  | some bag => consul_config_provider_app_data_of bag

/-- The `ConsulConfigRequirer.datacenter` property: `data.get("datacenter")`. -/
def requirer_datacenter (rel : Option RawDatabag) : Option String :=
  (get_app_databag_from_relation rel).map (·.datacenter)

/-- The `ConsulConfigRequirer.server_join_addresses` property. -/
def requirer_server_join_addresses (rel : Option RawDatabag) : Option SjaValue :=
  (get_app_databag_from_relation rel).map (·.server_join_addresses)

/-- Events a `ConsulConfigRequirer` can emit towards its charm. -/
inductive EmittedEvent where
  | configChanged
  | goneAway
deriving DecidableEq, Repr

/-- `ConsulConfigRequirer._on_relation_changed`: emit `config_changed` iff
the databag validates. -/
def on_relation_changed (rel : Option RawDatabag) : List EmittedEvent :=
  if validate_databag_from_relation rel then [EmittedEvent.configChanged] else []

/-- `ConsulConfigRequirer._on_relation_broken`: would emit `goneaway`
(defined in the library but never registered as an observer). -/
def on_relation_broken (_rel : Option RawDatabag) : List EmittedEvent :=
  [EmittedEvent.goneAway]

/-- The framework events a requirer observes for its relation name. -/
inductive RelEventKind where
  | relationChanged
  | relationBroken
deriving DecidableEq, Repr

/-- The observer table registered in `ConsulConfigRequirer.__init__`:
both `relation_changed` and `relation_broken` are observed with
`self._on_relation_changed`. -/
def requirer_observed_handler : RelEventKind → (Option RawDatabag → List EmittedEvent)
  | RelEventKind.relationChanged => on_relation_changed
  | RelEventKind.relationBroken => on_relation_changed

/-- All events emitted over a sequence of framework events, each paired with
the relation databag visible when it is handled. -/
def requirer_emitted (trace : List (RelEventKind × Option RawDatabag)) :
    List EmittedEvent :=
  (trace.map (fun p => requirer_observed_handler p.1 p.2)).flatten

/-! ### Helper lemmas about the reconcile cycle -/

/-- With a reachable workload, the persisted document reads back as `some c`
exactly when the file holds the document `c`. -/
theorem running_consul_config_eq_some (st : WorkloadState) (c : ConsulConfig)
    (hc : st.canConnect = true) :
    running_consul_config st = some c ↔ st.configFile = FileState.doc c := by
  cases hfile : st.configFile <;>
    simp [running_consul_config, running_consul_config_result, hc, hfile]

/-- `update_consul_config` leaves the workload with the built document on
file and changes nothing else. -/
theorem update_consul_config_state (cfg : CharmConfig) (a m : String)
    (pu : Int) (st : WorkloadState) (hc : st.canConnect = true) :
    (update_consul_config cfg a m pu st).2.canConnect = true ∧
    (update_consul_config cfg a m pu st).2.configFile =
      FileState.doc (built_consul_config cfg a m pu) ∧
    (update_consul_config cfg a m pu st).2.planServices = st.planServices := by
  by_cases h1 : running_consul_config st = some (built_consul_config cfg a m pu)
  · have hfile := (running_consul_config_eq_some st _ hc).mp h1
    simp [update_consul_config, h1, hc, hfile]
  · simp [update_consul_config, h1, hc]

/-- `update_pebble_layer` leaves the workload with the charm's layer services
active and changes nothing else. -/
theorem update_pebble_layer_state (st : WorkloadState) :
    (update_pebble_layer st).2.canConnect = st.canConnect ∧
    (update_pebble_layer st).2.configFile = st.configFile ∧
    (update_pebble_layer st).2.planServices = pebble_layer_services := by
  by_cases h : st.planServices = pebble_layer_services <;>
    simp [update_pebble_layer, h]

/-- On a reachable workload, every branch of `configure` returns the state
left by the config write followed by the layer write. -/
theorem configure_workload_eq (cfg : CharmConfig) (a m : String) (pu : Int)
    (err : Option String) (st : WorkloadState) (hc : st.canConnect = true) :
    (configure cfg a m pu err st).workload =
      (update_pebble_layer (update_consul_config cfg a m pu st).2).2 := by
  simp only [configure, hc, if_true]
  cases err <;> split <;> rfl

/-- After one reconcile cycle on a reachable workload, the workload holds the
built document and the charm's layer, and is still reachable. -/
theorem configure_workload_state (cfg : CharmConfig) (a m : String) (pu : Int)
    (err : Option String) (st : WorkloadState) (hc : st.canConnect = true) :
    (configure cfg a m pu err st).workload.canConnect = true ∧
    (configure cfg a m pu err st).workload.configFile =
      FileState.doc (built_consul_config cfg a m pu) ∧
    (configure cfg a m pu err st).workload.planServices = pebble_layer_services := by
  rw [configure_workload_eq cfg a m pu err st hc]
  obtain ⟨u1, u2, u3⟩ := update_consul_config_state cfg a m pu st hc
  obtain ⟨p1, p2, p3⟩ := update_pebble_layer_state (update_consul_config cfg a m pu st).2
  exact ⟨p1.trans u1, p2.trans u2, p3⟩

/-! ### Concrete example inputs used by the witnesses and counterexamples -/

/-- A workload with Pebble reachable, no persisted document and an empty plan
(the state of a freshly started container). -/
def fresh_workload : WorkloadState :=
  { canConnect := true, configFile := FileState.missing, planServices := none }

/-- A plain configuration with exposure disabled (the boolean option of the
`src/src` charm variant). -/
def cfg_example : CharmConfig :=
  { datacenter := "dc1"
    exposeGossipAndRpcPorts := ConfigValue.bool false
    serflanNodePort := 30501 }

/-! ### C1 -/

/-- C1: in every reconcile cycle with a reachable workload, a restart of the
consul service is attempted iff the rendered configuration or the pebble
layer changed; and when the restart raises `ChangeError e`, the cycle reports
`Blocked` with a message embedding `e` and returns without invoking endpoint
publication. -/
theorem configure_restart_gate_and_failed_restart_blocks
    (cfg : CharmConfig) (a m : String) (pu : Int) (err : Option String)
    (st : WorkloadState) (hc : st.canConnect = true) :
    (configure cfg a m pu err st).restartAttempted =
      ((configure cfg a m pu err st).configChanged ||
        (configure cfg a m pu err st).layerChanged) ∧
    (∀ e, err = some e → (configure cfg a m pu err st).restartAttempted = true →
      (configure cfg a m pu err st).status =
        Status.blocked ("Failed to restart Consul: " ++ e) ∧
      (configure cfg a m pu err st).publishAttempted = false) := by
  by_cases h1 : running_consul_config st = some (built_consul_config cfg a m pu)
  · have e1 : update_consul_config cfg a m pu st = (false, st) := by
      simp [update_consul_config, h1]
    by_cases h2 : st.planServices = pebble_layer_services
    · have e2 : update_pebble_layer st = (false, st) := by
        simp [update_pebble_layer, h2]
      cases err <;> simp [configure, hc, e1, e2]
    · have e2 : update_pebble_layer st =
          (true, { st with planServices := pebble_layer_services }) := by
        simp [update_pebble_layer, h2]
      cases err <;> simp [configure, hc, e1, e2]
  · have e1 : update_consul_config cfg a m pu st =
        (true, { st with configFile := FileState.doc (built_consul_config cfg a m pu) }) := by
      simp [update_consul_config, h1]
    by_cases h2 : st.planServices = pebble_layer_services
    · have e2 : update_pebble_layer
          ({ st with configFile := FileState.doc (built_consul_config cfg a m pu) }) =
          (false, { st with configFile := FileState.doc (built_consul_config cfg a m pu) }) := by
        simp [update_pebble_layer, h2]
      cases err <;> simp [configure, hc, e1, e2]
    · have e2 : update_pebble_layer
          ({ st with configFile := FileState.doc (built_consul_config cfg a m pu) }) =
          (true, { st with configFile := FileState.doc (built_consul_config cfg a m pu), planServices := pebble_layer_services }) := by
        simp [update_pebble_layer, h2]
      cases err <;> simp [configure, hc, e1, e2]

/-- C1 witness: the theorem applied to a fresh workload with a failing
restart (`ChangeError "boom"`). -/
theorem configure_restart_gate_witness :
    fresh_workload.canConnect = true ∧
    ((configure cfg_example "consul" "model" 1 (some "boom") fresh_workload).restartAttempted =
      ((configure cfg_example "consul" "model" 1 (some "boom") fresh_workload).configChanged ||
        (configure cfg_example "consul" "model" 1 (some "boom") fresh_workload).layerChanged) ∧
    (∀ e, (some "boom" : Option String) = some e →
      (configure cfg_example "consul" "model" 1 (some "boom") fresh_workload).restartAttempted = true →
      (configure cfg_example "consul" "model" 1 (some "boom") fresh_workload).status =
        Status.blocked ("Failed to restart Consul: " ++ e) ∧
      (configure cfg_example "consul" "model" 1 (some "boom") fresh_workload).publishAttempted = false)) :=
  ⟨rfl, configure_restart_gate_and_failed_restart_blocks cfg_example "consul" "model" 1
    (some "boom") fresh_workload rfl⟩

/-! ### C2 -/

/-- C2: the reconcile cycle is idempotent — after a successfully completed
cycle, a second cycle with the same configuration, names, unit count and
restart environment performs no configuration write, no layer application
and no restart (both comparisons report equality), and reports the same
status. -/
theorem configure_idempotent
    (cfg : CharmConfig) (a m : String) (pu : Int) (err : Option String)
    (st : WorkloadState) (hc : st.canConnect = true)
    (hs : (configure cfg a m pu err st).status = Status.active) :
    (configure cfg a m pu err (configure cfg a m pu err st).workload).configChanged = false ∧
    (configure cfg a m pu err (configure cfg a m pu err st).workload).layerChanged = false ∧
    (configure cfg a m pu err (configure cfg a m pu err st).workload).restartAttempted = false ∧
    (configure cfg a m pu err (configure cfg a m pu err st).workload).status =
      (configure cfg a m pu err st).status := by
  obtain ⟨w1, w2, w3⟩ := configure_workload_state cfg a m pu err st hc
  rw [hs]
  set wl := (configure cfg a m pu err st).workload with hwl
  have hrun : running_consul_config wl = some (built_consul_config cfg a m pu) :=
    (running_consul_config_eq_some _ _ w1).mpr w2
  have e1 : update_consul_config cfg a m pu wl = (false, wl) := by
    simp [update_consul_config, hrun]
  have e2 : update_pebble_layer wl = (false, wl) := by
    simp [update_pebble_layer, w3]
  simp [configure, w1, e1, e2]

/-- C2 witness: a first cycle on a fresh workload (restart succeeds) followed
by a second cycle changes nothing. -/
theorem configure_idempotent_witness :
    fresh_workload.canConnect = true ∧
    (configure cfg_example "consul" "model" 1 none fresh_workload).status = Status.active ∧
    ((configure cfg_example "consul" "model" 1 none
        (configure cfg_example "consul" "model" 1 none fresh_workload).workload).configChanged = false ∧
     (configure cfg_example "consul" "model" 1 none
        (configure cfg_example "consul" "model" 1 none fresh_workload).workload).layerChanged = false ∧
     (configure cfg_example "consul" "model" 1 none
        (configure cfg_example "consul" "model" 1 none fresh_workload).workload).restartAttempted = false ∧
     (configure cfg_example "consul" "model" 1 none
        (configure cfg_example "consul" "model" 1 none fresh_workload).workload).status =
       (configure cfg_example "consul" "model" 1 none fresh_workload).status) :=
  ⟨rfl, rfl, configure_idempotent cfg_example "consul" "model" 1 none fresh_workload rfl rfl⟩

/-! ### C3 -/

/-- `expose-gossip-and-rpc-ports = "nodeport"` with the out-of-range
`serflan-node-port = 29999`. -/
def cfg_nodeport_29999 : CharmConfig :=
  { datacenter := "dc1"
    exposeGossipAndRpcPorts := ConfigValue.str "nodeport"
    serflanNodePort := 29999 }

/-- C3 (what the code actually does at the claim's failing input): with
`exposeMode = nodeport` and `serflan-node-port = 29999` the cycle does not
block — `get_consul_ports` adopts 29999 as `serf_lan` with no range check
(`src/charm/src/charm.py` line 162 is only a TODO), the out-of-range document
is written to the workload, and the cycle ends `Active`, contradicting the
claimed `Blocked` status with a message naming 29999 and 30000-32767. -/
theorem configure_accepts_out_of_range_serflan_port :
    (get_consul_ports cfg_nodeport_29999).serf_lan = 29999 ∧
    (built_consul_config cfg_nodeport_29999 "consul" "model" 1).ports.serf_lan = 29999 ∧
    (configure cfg_nodeport_29999 "consul" "model" 1 none fresh_workload).workload.configFile =
      FileState.doc (built_consul_config cfg_nodeport_29999 "consul" "model" 1) ∧
    (configure cfg_nodeport_29999 "consul" "model" 1 none fresh_workload).status =
      Status.active :=
  ⟨rfl, rfl, rfl, rfl⟩

/-! ### C4 -/

/-- `expose-gossip-and-rpc-ports = "invalid"`, a value outside the enum
`{false, nodeport, loadbalancer}`. -/
def cfg_invalid_expose : CharmConfig :=
  { datacenter := "dc1"
    exposeGossipAndRpcPorts := ConfigValue.str "invalid"
    serflanNodePort := 30501 }

/-- C4 (what the code actually does at the claim's failing input): the value
`"invalid"` is merely tested for truthiness, so the charm silently behaves as
if exposure were enabled — `serf_lan` is overridden with the node port,
`open_ports` hands a NodePort service to the patch collaborator, and the
reconcile cycle ends `Active`; no `Blocked` status listing the valid values
is ever produced. -/
theorem open_ports_silently_exposes_on_invalid_value :
    (get_consul_ports cfg_invalid_expose).serf_lan = 30501 ∧
    open_ports cfg_invalid_expose "consul" =
      OpenPortsResult.nodePortService "consul" "NodePort"
        [ { port := 30501, name := "juju-30501-tcp", protocol := "TCP"
            nodePort := some 30501, targetPort := none }
        , { port := 30501, name := "juju-30501-udp", protocol := "UDP"
            nodePort := some 30501, targetPort := none }
        , { port := 8500, name := "juju-8500-tcp", protocol := "TCP"
            nodePort := none, targetPort := some 8500 } ] ∧
    (configure cfg_invalid_expose "consul" "model" 1 none fresh_workload).status =
      Status.active :=
  ⟨rfl, by decide, rfl⟩

/-! ### C5 -/

/-- C5: for every application name, model name and port set, the internal
join-address computation is exactly the one-element list
`["<app>.<model>.svc:<serf_lan>"]`, and the rendered configuration's
`retry_join` always equals the internal list — never the external node-port
address list, whatever the exposure configuration. -/
theorem retry_join_is_internal_join_addresses
    (cfg : CharmConfig) (appName modelName : String) (plannedUnits : Int)
    (ports : Ports) :
    get_internal_join_addresses appName modelName ports =
      [appName ++ "." ++ modelName ++ ".svc:" ++ toString ports.serf_lan] ∧
    (built_consul_config cfg appName modelName plannedUnits).retry_join =
      get_internal_join_addresses appName modelName (get_consul_ports cfg) :=
  ⟨rfl, rfl⟩

/-! ### C6 -/

/-- Appending a fixed suffix to a string is injective. -/
theorem string_append_suffix_injective (suffix : String) :
    Function.Injective (fun s : String => s ++ suffix) := by
  intro a b h
  have hd : (a ++ suffix).data = (b ++ suffix).data := congrArg String.data h
  simp only [String.data_append] at hd
  exact String.ext (List.append_cancel_right hd)

/-- `expose-gossip-and-rpc-ports = "nodeport"` with
`serflan-node-port = 30501`. -/
def cfg_nodeport_30501 : CharmConfig :=
  { datacenter := "dc1"
    exposeGossipAndRpcPorts := ConfigValue.str "nodeport"
    serflanNodePort := 30501 }

/-- A single pod with `hostIP = 10.10.0.10`. -/
def pod_host_10_10_0_10 : Pod :=
  { status := some { hostIP := some "10.10.0.10" } }

/-- C6: the external join-address computation returns `None` whenever
exposure is disabled; when enabled it returns exactly one address
`"<hostIP>:<serf_lan>"` per distinct host IP of the listed pods (membership
characterisation plus a cardinality match), and on the concrete input
`serflan-node-port = 30501` with a single pod on host `10.10.0.10` it
returns the singleton `{"10.10.0.10:30501"}`. -/
theorem external_join_addresses_spec (cfg : CharmConfig) (pods : List Pod) :
    (cfg.exposeGossipAndRpcPorts.truthy = false →
      get_external_join_addresses cfg pods = none) ∧
    (cfg.exposeGossipAndRpcPorts.truthy = true →
      ∃ s : Finset String, get_external_join_addresses cfg pods = some s ∧
        (∀ a, a ∈ s ↔ ∃ ip ∈ get_hostips_for_consul_service pods,
          ip ++ ":" ++ toString (get_consul_ports cfg).serf_lan = a) ∧
        s.card = (get_hostips_for_consul_service pods).card) ∧
    get_external_join_addresses cfg_nodeport_30501 [pod_host_10_10_0_10] =
      some {"10.10.0.10:30501"} := by
  have hinj : Function.Injective
      (fun ip_address : String =>
        ip_address ++ ":" ++ toString (get_consul_ports cfg).serf_lan) := by
    intro a b hab
    exact string_append_suffix_injective ":" (string_append_suffix_injective _ hab)
  refine ⟨fun h => by simp [get_external_join_addresses, h], fun h => ?_, by decide⟩
  refine ⟨(get_hostips_for_consul_service pods).image
      (fun ip_address => ip_address ++ ":" ++ toString (get_consul_ports cfg).serf_lan),
    by simp [get_external_join_addresses, h],
    fun a => by simp [Finset.mem_image],
    Finset.card_image_of_injective _ hinj⟩

/-- C6 witness: the theorem applied at the nodeport configuration with one
pod, discharging the exposure-enabled hypothesis. -/
theorem external_join_addresses_witness :
    cfg_nodeport_30501.exposeGossipAndRpcPorts.truthy = true ∧
    (∃ s : Finset String,
      get_external_join_addresses cfg_nodeport_30501 [pod_host_10_10_0_10] = some s ∧
      (∀ a, a ∈ s ↔ ∃ ip ∈ get_hostips_for_consul_service [pod_host_10_10_0_10],
        ip ++ ":" ++ toString (get_consul_ports cfg_nodeport_30501).serf_lan = a) ∧
      s.card = (get_hostips_for_consul_service [pod_host_10_10_0_10]).card) :=
  ⟨by decide,
    (external_join_addresses_spec cfg_nodeport_30501 [pod_host_10_10_0_10]).2.1 (by decide)⟩

/-! ### C7 -/

/-- C7: non-leader units perform no externally visible write — relation
publication leaves every relation databag unchanged and Service
reconciliation leaves the cluster's Service object unchanged. -/
theorem nonleader_performs_no_write
    (datacenter : String) (addrs : List String) (target : Option Nat)
    (relations : List ProviderDatabag) (appName modelName : String)
    (service_ports : List ServicePort) (service_type : String)
    (cluster : Option K8sService) :
    set_cluster_config false datacenter addrs target relations = relations ∧
    reconcile_service false appName modelName service_ports service_type cluster =
      cluster := by
  constructor
  · simp [set_cluster_config]
  · simp [reconcile_service]

/-! ### C8 -/

/-- A reachable workload whose persisted document does not parse as JSON. -/
def corrupt_workload : WorkloadState :=
  { canConnect := true, configFile := FileState.corrupt, planServices := none }

/-- C8 counterexample: on a present but unparseable persisted document,
reading the running configuration does not yield the empty document —
`json.loads` raises `JSONDecodeError`, which
`except (FileNotFoundError, Error)` does not catch, so the exception
propagates and the reconcile cycle fails instead of rewriting. -/
theorem corrupt_config_read_raises :
    running_consul_config_result corrupt_workload =
      ReadDocResult.raisesJSONDecodeError ∧
    running_consul_config_result corrupt_workload ≠ ReadDocResult.doc none :=
  ⟨rfl, by decide⟩

/-- C8 (amended): with a reachable workload whose persisted document is
missing, `_running_consul_config` returns the empty document (treated as "no
prior document"), the cycle does not fail on it: the comparison forces a
rewrite (`configChanged = true`) and the cycle leaves the freshly built
document on file.  A corrupt (unparseable) document instead raises
`JSONDecodeError` out of the read, failing the cycle. -/
theorem missing_config_forces_rewrite
    (cfg : CharmConfig) (appName modelName : String) (plannedUnits : Int)
    (restartError : Option String) (st : WorkloadState)
    (hc : st.canConnect = true)
    (hf : st.configFile = FileState.missing) :
    running_consul_config_result st = ReadDocResult.doc none ∧
    running_consul_config st = none ∧
    (configure cfg appName modelName plannedUnits restartError st).configChanged = true ∧
    (configure cfg appName modelName plannedUnits restartError st).workload.configFile =
      FileState.doc (built_consul_config cfg appName modelName plannedUnits) ∧
    (∀ st2 : WorkloadState, st2.canConnect = true →
      st2.configFile = FileState.corrupt →
      running_consul_config_result st2 = ReadDocResult.raisesJSONDecodeError) := by
  have hres : running_consul_config_result st = ReadDocResult.doc none := by
    simp [running_consul_config_result, hc, hf]
  have hrun : running_consul_config st = none := by
    simp [running_consul_config, hres]
  have e1 : update_consul_config cfg appName modelName plannedUnits st =
      (true, { st with configFile := FileState.doc (built_consul_config cfg appName modelName plannedUnits) }) := by
    simp [update_consul_config, hrun]
  refine ⟨hres, hrun, ?_, (configure_workload_state cfg appName modelName plannedUnits
    restartError st hc).2.1,
    fun st2 h2c h2f => by simp [running_consul_config_result, h2c, h2f]⟩
  by_cases h2 : st.planServices = pebble_layer_services
  · have e2 : update_pebble_layer
        ({ st with configFile := FileState.doc (built_consul_config cfg appName modelName plannedUnits) }) =
        (false, { st with configFile := FileState.doc (built_consul_config cfg appName modelName plannedUnits) }) := by
      simp [update_pebble_layer, h2]
    cases restartError <;> simp [configure, hc, e1, e2]
  · have e2 : update_pebble_layer
        ({ st with configFile := FileState.doc (built_consul_config cfg appName modelName plannedUnits) }) =
        (true, { st with configFile := FileState.doc (built_consul_config cfg appName modelName plannedUnits), planServices := pebble_layer_services }) := by
      simp [update_pebble_layer, h2]
    cases restartError <;> simp [configure, hc, e1, e2]

/-- C8 witness: a reachable workload with a missing document. -/
theorem missing_config_forces_rewrite_witness :
    fresh_workload.canConnect = true ∧
    fresh_workload.configFile = FileState.missing ∧
    (running_consul_config_result fresh_workload = ReadDocResult.doc none ∧
      running_consul_config fresh_workload = none ∧
      (configure cfg_example "consul" "model" 1 none fresh_workload).configChanged = true ∧
      (configure cfg_example "consul" "model" 1 none fresh_workload).workload.configFile =
        FileState.doc (built_consul_config cfg_example "consul" "model" 1) ∧
      (∀ st2 : WorkloadState, st2.canConnect = true →
        st2.configFile = FileState.corrupt →
        running_consul_config_result st2 = ReadDocResult.raisesJSONDecodeError)) :=
  ⟨rfl, rfl, missing_config_forces_rewrite cfg_example "consul" "model" 1
    none fresh_workload rfl rfl⟩

/-! ### C9 -/

/-- A databag with no `datacenter` key and a well-formed
`server_join_addresses` JSON list. -/
def databag_missing_datacenter : RawDatabag :=
  { datacenter := none
    server_join_addresses := some (RawJson.strList ["10.0.0.1:8301"]) }

/-- C9 counterexample: the claim holds that a databag with a missing
`datacenter` fails schema validation and the accessors return `None`; in
fact `Field("Datacenter cluster name")` declares that string as the pydantic
*default*, so validation succeeds, `config_changed` is emitted, and the
`datacenter` accessor returns the default string rather than `None`. -/
theorem missing_datacenter_is_accepted :
    validate_databag_from_relation (some databag_missing_datacenter) = true ∧
    on_relation_changed (some databag_missing_datacenter) =
      [EmittedEvent.configChanged] ∧
    requirer_datacenter (some databag_missing_datacenter) =
      some "Datacenter cluster name" :=
  ⟨rfl, rfl, rfl⟩

/-- C9 (amended): a databag whose `server_join_addresses` value is present
but is not a JSON list of strings is rejected without raising — no
`config_changed` event is emitted and both accessor properties return
`None`, as if the relation were not yet configured.  (A databag with a
missing field does not fail validation: pydantic fills the declared default
without validating it.) -/
theorem invalid_server_join_addresses_rejected
    (bag : RawDatabag) (raw : RawJson)
    (h1 : bag.server_join_addresses = some raw)
    (h2 : parse_server_join_addresses raw = none) :
    validate_databag_from_relation (some bag) = false ∧
    on_relation_changed (some bag) = [] ∧
    requirer_datacenter (some bag) = none ∧
    requirer_server_join_addresses (some bag) = none := by
  have h : consul_config_provider_app_data_of bag = none := by
    simp [consul_config_provider_app_data_of, h1, h2]
  refine ⟨?_, ?_, ?_, ?_⟩ <;>
    simp [validate_databag_from_relation, on_relation_changed,
      get_app_databag_from_relation, requirer_datacenter,
      requirer_server_join_addresses, h]

/-- A databag whose `server_join_addresses` value is not valid JSON. -/
def databag_invalid_sja : RawDatabag :=
  { datacenter := some "dc1", server_join_addresses := some RawJson.notJson }

/-- C9 witness: the amended theorem applied to a databag carrying a
non-JSON `server_join_addresses` value. -/
theorem invalid_server_join_addresses_rejected_witness :
    databag_invalid_sja.server_join_addresses = some RawJson.notJson ∧
    parse_server_join_addresses RawJson.notJson = none ∧
    (validate_databag_from_relation (some databag_invalid_sja) = false ∧
      on_relation_changed (some databag_invalid_sja) = [] ∧
      requirer_datacenter (some databag_invalid_sja) = none ∧
      requirer_server_join_addresses (some databag_invalid_sja) = none) :=
  ⟨rfl, rfl,
    invalid_server_join_addresses_rejected databag_invalid_sja RawJson.notJson rfl rfl⟩

/-! ### C10 -/

/-- No handler registered by `ConsulConfigRequirer.__init__` can emit
`goneaway`: both observed framework events are routed to
`_on_relation_changed`. -/
theorem goneaway_not_in_observed_handler (k : RelEventKind)
    (rel : Option RawDatabag) :
    EmittedEvent.goneAway ∉ requirer_observed_handler k rel := by
  cases k <;> simp only [requirer_observed_handler, on_relation_changed] <;>
    split <;> simp

/-- C10: over every sequence of relation events (changed or broken, with any
databag contents visible at handling time), the requirer never emits
`ClusterServerGoneAwayEvent` — `relation_broken` is observed with the
relation-changed handler, not with `_on_relation_broken`. -/
theorem goneaway_never_emitted
    (trace : List (RelEventKind × Option RawDatabag)) :
    EmittedEvent.goneAway ∉ requirer_emitted trace := by
  induction trace with
  | nil => simp [requirer_emitted]
  | cons p rest ih =>
    simp only [requirer_emitted, List.map_cons, List.flatten_cons,
      List.mem_append] at ih ⊢
    rintro (h | h)
    · exact goneaway_not_in_observed_handler p.1 p.2 h
    · exact ih h

/-- C10 witness: a broken-relation event followed by a changed-relation
event emits no `goneaway`. -/
theorem goneaway_never_emitted_witness :
    EmittedEvent.goneAway ∉ requirer_emitted
      [(RelEventKind.relationBroken, none),
       (RelEventKind.relationChanged, some databag_missing_datacenter)] :=
  goneaway_never_emitted
    [(RelEventKind.relationBroken, none),
     (RelEventKind.relationChanged, some databag_missing_datacenter)]
